import Mathlib

/-!
A shallow embedding of the race-simulator application (`src/app.py`) and the
verification of the spec claims about it.

The application is a Streamlit script backed by a Snowflake table.  The
embedding models:
- the TEAMS and CARS tables as Lean lists of records, in insertion order;
- the per-car time computation (`app.py` lines 148-152) over the rationals
  (the Python code uses binary floats; all concrete inputs used below are
  exactly representable and far from rounding boundaries);
- the display formatting of the time (line 157), since the program stores
  the time only as the formatted string and *sorts* that string;
- the race button handler (lines 130-182), including the entry-fee UPDATE,
  the string sort, the winner selection and the prize UPDATE, with the
  success or failure of the two database writes given by two Boolean oracles;
- the Add-Team (lines 68-79) and Add-Car (lines 82-114) button handlers,
  with the slider widgets modelled as range clamps (a Streamlit slider can
  only return a value between its declared minimum and maximum).
-/

namespace RaceSim

/-- `RACE_FEE` constant, `app.py` line 9. -/
def RACE_FEE : Int := 1000

/-- `PRIZE_MONEY` constant, `app.py` line 10. -/
def PRIZE_MONEY : Int := 5000

/-- A row of the TEAMS.TEAMS table: TEAM_ID, TEAM_NAME, MEMBERS_COUNT, BUDGET
(insert at line 73; member count is always inserted as 0, budget comes from a
`number_input` with `min_value=0`). -/
structure Team where
  teamId : String
  teamName : String
  membersCount : Nat
  budget : Int
deriving Repr, DecidableEq

/-- A row of the CARS.CARS table: CAR_ID, CAR_MODEL, TOP_SPEED, ACCELERATION,
HANDLING, ASSIGNED_TEAM_ID (insert at line 106). -/
structure Car where
  carId : String
  carModel : String
  topSpeed : ℚ
  acceleration : ℚ
  handling : ℚ
  assignedTeamId : String
deriving Repr, DecidableEq

/-- The three `random.uniform(-0.1, 0.1)` draws made for one car at lines
150-152, taken as parameters of the embedding. -/
structure Jitter where
  j1 : ℚ
  j2 : ℚ
  j3 : ℚ
deriving Repr, DecidableEq

/-- `time_taken`, `app.py` lines 150-152. -/
def timeTaken (car : Car) (j : Jitter) : ℚ :=
  100 / (car.topSpeed * (1 + j.j1))
    + 10 / (car.acceleration * (1 + j.j2))
    + 10 / (car.handling * (1 + j.j3))

/-- Modelled from the spec: the per-car time formula exactly as §4.2 step 3
writes it, kept as a separate definition so that it can be compared with the
code's `timeTaken`. -/
def specTime (topSpeed acceleration handling j1 j2 j3 : ℚ) : ℚ :=
  100 / (topSpeed * (1 + j1)) + 10 / (acceleration * (1 + j2))
    + 10 / (handling * (1 + j3))

/-- Round to the nearest integer, ties to even — the rounding used by Python
`format(x, ".2f")` on the scaled value.  Only applied to non-negative race
times below. -/
def roundHalfEven (q : ℚ) : ℤ :=
  if q - ⌊q⌋ < 1/2 then ⌊q⌋
  else if 1/2 < q - ⌊q⌋ then ⌊q⌋ + 1
  else if Even ⌊q⌋ then ⌊q⌋ else ⌊q⌋ + 1

/-- Two-digit rendering of the fractional part (0 ≤ n < 100). -/
def twoDigits (n : ℕ) : String :=
  if n < 10 then "0" ++ toString n else toString n

/-- The string actually stored in the "Time" column: `f"{time_taken:.2f} sec"`
(`app.py` line 157), for a non-negative time. -/
def formatTime (t : ℚ) : String :=
  let c := (roundHalfEven (100 * t)).toNat
  toString (c / 100) ++ "." ++ twoDigits (c % 100) ++ " sec"

/-- Lexicographic comparison of character lists by code point — the comparison
Python applies when sorting a column of `str` values. -/
def charListLt : List Char → List Char → Bool
  | _, [] => false
  | [], _ :: _ => true
  | a :: as, b :: bs =>
    if a.val < b.val then true
    else if b.val < a.val then false
    else charListLt as bs

/-- Python string `<`. -/
def pyStrLt (s t : String) : Bool := charListLt s.data t.data

/-- Python string `≤`. -/
def pyStrLe (s t : String) : Bool := !(pyStrLt t s)

/-- A row of the `race_results` list built at lines 154-159.  The program
stores the time only as the formatted string `time`; `rawTime` is
specification-only ghost data (the unformatted `time_taken` value) carried so
that ordering properties can be stated; it plays no part in the sort or the
winner selection. -/
structure RaceResult where
  carModel : String
  teamName : String
  time : String
  teamId : String
  rawTime : ℚ
deriving Repr, DecidableEq

/-- One entry of `race_results` (lines 154-159): the team name is the
TEAM_NAME of the first team row whose TEAM_ID matches the car's
ASSIGNED_TEAM_ID (`teams_df.loc[...].iloc[0]`; the lookup is total here,
returning "" where the Python code would raise IndexError on a dangling
reference). -/
def mkResult (teams : List Team) (car : Car) (j : Jitter) : RaceResult :=
  { carModel := car.carModel
    teamName :=
      ((teams.find? (fun t => t.teamId = car.assignedTeamId)).map Team.teamName).getD ""
    time := formatTime (timeTaken car j)
    teamId := car.assignedTeamId
    rawTime := timeTaken car j }

/-- The loop at lines 148-159: one result per car, in the cars' table order,
car number `i` consuming the jitter draws `js i`. -/
def simulateRace (teams : List Team) (cars : List Car) (js : ℕ → Jitter) :
    List RaceResult :=
  cars.enum.map (fun p => mkResult teams p.2 (js p.1))

/-- Insert into a list sorted by the formatted-time string. -/
def insertByTime (r : RaceResult) : List RaceResult → List RaceResult
  | [] => [r]
  | x :: xs => if pyStrLe r.time x.time then r :: x :: xs else x :: insertByTime r xs

/-- `results_df.sort_values(by="Time")`, `app.py` line 162: the sort key is the
formatted STRING in the "Time" column, compared lexicographically.  pandas
defaults to numpy quicksort (an introsort), which is not stable; this
embedding uses an insertion sort, which agrees with it whenever all keys are
distinct.  The permutation produced on tied keys is numpy-implementation
defined and is not modelled. -/
def sortByTime : List RaceResult → List RaceResult
  | [] => []
  | x :: xs => insertByTime x (sortByTime xs)

/-- The ranked results frame of line 162. -/
def raceRanking (teams : List Team) (cars : List Car) (js : ℕ → Jitter) :
    List RaceResult :=
  sortByTime (simulateRace teams cars js)

/-- `winner_team_id = results_df.iloc[0]['Team ID']` (lines 163-164); "" on an
empty frame, where the Python code would raise. -/
def winnerTeamIdOf (results : List RaceResult) : String :=
  ((results.head?).map RaceResult.teamId).getD ""

/-- The fee UPDATE at line 138: `UPDATE TEAMS.TEAMS SET BUDGET = BUDGET - 1000`
hits every row of the table. -/
def applyFee (teams : List Team) : List Team :=
  teams.map fun t => { t with budget := t.budget - RACE_FEE }

/-- The prize UPDATE at line 169: add `PRIZE_MONEY` to every row whose TEAM_ID
equals the winner's. -/
def applyPrize (teams : List Team) (wid : String) : List Team :=
  teams.map fun t =>
    if t.teamId = wid then { t with budget := t.budget + PRIZE_MONEY } else t

/-- The error reports the race handler can emit (`st.error` calls at lines
132, 141 and 172). -/
inductive RaceError where
  | insufficientEntrants
  | persistenceFee
  | persistencePrize
deriving Repr, DecidableEq

/-- Observable outcome of one press of the Start-Race button: the final TEAMS
table, the results frame displayed by `st.dataframe` at line 175 (if reached),
and the errors reported. -/
structure RaceOutcome where
  finalTeams : List Team
  displayedResults : Option (List RaceResult)
  errors : List RaceError
deriving Repr, DecidableEq

/-- The Start-Race handler, `app.py` lines 130-182.  `feeOk` / `prizeOk` say
whether the fee UPDATE (line 138) and the prize UPDATE (line 169) succeed; a
failed UPDATE is never committed, so it leaves the table untouched.  A fee
failure runs `st.stop()` (line 142), ending the script before the race loop;
a prize failure only reports (line 172) and the script continues to display
the already-computed results. -/
def startRace (teams : List Team) (cars : List Car) (js : ℕ → Jitter)
    (feeOk prizeOk : Bool) : RaceOutcome :=
  if teams.isEmpty || cars.isEmpty then
    { finalTeams := teams, displayedResults := none,
      errors := [.insufficientEntrants] }
  else if !feeOk then
    { finalTeams := teams, displayedResults := none,
      errors := [.persistenceFee] }
  else
    let afterFee := applyFee teams
    let results := raceRanking teams cars js
    let wid := winnerTeamIdOf results
    if prizeOk then
      { finalTeams := applyPrize afterFee wid, displayedResults := some results,
        errors := [] }
    else
      { finalTeams := afterFee, displayedResults := some results,
        errors := [.persistencePrize] }

/-- Observable outcome of one press of the Add-Team button: the TEAMS table
afterwards, whether an `st.error` was reported, and whether the insert
succeeded. -/
structure AddTeamOutcome where
  teams : List Team
  reportedError : Bool
  succeeded : Bool
deriving Repr, DecidableEq

/-- The Add-Team handler, `app.py` lines 68-79.  The guard
`if team_name and conn:` silently does nothing when the name is the empty
string (falsy) or the connection is absent; otherwise the INSERT runs, with
its success given by `persistOk` (the `except` branch at line 78 reports and
leaves the table untouched).  The budget widget is a `number_input` with
`min_value=0`, modelled as a clamp. -/
def addTeamHandler (teams : List Team) (name : String) (budgetIn : Int)
    (newId : String) (connOk persistOk : Bool) : AddTeamOutcome :=
  let budget := max 0 budgetIn
  if name = "" || !connOk then
    { teams := teams, reportedError := false, succeeded := false }
  else if !persistOk then
    { teams := teams, reportedError := true, succeeded := false }
  else
    { teams := teams ++
        [{ teamId := newId, teamName := name, membersCount := 0, budget := budget }],
      reportedError := false, succeeded := true }

/-- A Streamlit slider with bounds `lo`/`hi` can only yield a value inside
`[lo, hi]`; the user's intended value is clamped to the range. -/
def slider (lo hi x : ℚ) : ℚ := min hi (max lo x)

/-- Observable outcome of one press of the Add-Car button. -/
structure AddCarOutcome where
  cars : List Car
  reportedError : Bool
  warnedNoTeams : Bool
  succeeded : Bool
deriving Repr, DecidableEq

/-- The Add-Car handler, `app.py` lines 82-114.  The stat widgets are sliders
with minimums 100, 1.0 and 1.0 (lines 87-91).  The team is chosen with a
`selectbox` over the names of the registered teams, modelled by the index
`teamIdx` into the teams list; with no teams only a warning is shown
(line 114).  The guard `if car_model and conn:` silently does nothing on an
empty model (falsy) or a missing connection.  The ASSIGNED_TEAM_ID inserted is
the TEAM_ID of the *first* team row whose TEAM_NAME equals the chosen name
(line 103).  `persistOk` gives the success of the INSERT at line 106. -/
def addCarHandler (teams : List Team) (cars : List Car) (carModel : String)
    (speedIn accelIn handlingIn : ℚ) (teamIdx : ℕ) (newId : String)
    (connOk persistOk : Bool) : AddCarOutcome :=
  let topSpeed := slider 100 400 speedIn
  let accel := slider 1 10 accelIn
  let hand := slider 1 10 handlingIn
  if teams.isEmpty then
    { cars := cars, reportedError := false, warnedNoTeams := true,
      succeeded := false }
  else
    match teams.get? teamIdx with
    | none =>
      { cars := cars, reportedError := false, warnedNoTeams := false,
        succeeded := false }
    | some chosen =>
      if carModel = "" || !connOk then
        { cars := cars, reportedError := false, warnedNoTeams := false,
          succeeded := false }
      else
        let tid :=
          ((teams.find? (fun t => t.teamName = chosen.teamName)).map Team.teamId).getD ""
        if !persistOk then
          { cars := cars, reportedError := true, warnedNoTeams := false,
            succeeded := false }
        else
          { cars := cars ++
              [{ carId := newId, carModel := carModel, topSpeed := topSpeed,
                 acceleration := accel, handling := hand, assignedTeamId := tid }],
            reportedError := false, warnedNoTeams := false, succeeded := true }

/-! Concrete fixtures used by the closed theorems below. -/

/-- Fixture team "Alpha". -/
def teamAlpha : Team := { teamId := "t1", teamName := "Alpha", membersCount := 0, budget := 50000 }

/-- Fixture team "Beta". -/
def teamBeta : Team := { teamId := "t2", teamName := "Beta", membersCount := 0, budget := 50000 }

/-- A slow car of team Alpha: time 21 s with zero jitter. -/
def carSlow : Car :=
  { carId := "c1", carModel := "Slowpoke", topSpeed := 100, acceleration := 1,
    handling := 1, assignedTeamId := "t1" }

/-- A fast car of team Beta: time 4.5 s with zero jitter. -/
def carFast : Car :=
  { carId := "c2", carModel := "Bolt", topSpeed := 200, acceleration := 5,
    handling := 5, assignedTeamId := "t2" }

/-- All jitter draws zero. -/
def zeroJitter : ℕ → Jitter := fun _ => { j1 := 0, j2 := 0, j3 := 0 }

/-- The spec's §8 example: Team A. -/
def teamA : Team := { teamId := "a", teamName := "Team A", membersCount := 0, budget := 50000 }

/-- The spec's §8 example: Team B. -/
def teamB : Team := { teamId := "b", teamName := "Team B", membersCount := 0, budget := 50000 }

/-- The spec's §8 example: Car X (speed 300, accel 8, handling 7, team A). -/
def carX : Car :=
  { carId := "x", carModel := "Car X", topSpeed := 300, acceleration := 8,
    handling := 7, assignedTeamId := "a" }

/-- The spec's §8 example: Car Y (speed 200, accel 5, handling 5, team B). -/
def carY : Car :=
  { carId := "y", carModel := "Car Y", topSpeed := 200, acceleration := 5,
    handling := 5, assignedTeamId := "b" }

/-! Helper lemmas. -/

/-- A slider with a sensible range only returns values inside the range. -/
theorem slider_bounds (lo hi x : ℚ) (h : lo ≤ hi) :
    lo ≤ slider lo hi x ∧ slider lo hi x ≤ hi := by
  unfold slider
  exact ⟨le_min h (le_max_left _ _), min_le_left _ _⟩

/-- On nonempty inputs with both writes succeeding, the race handler deducts
the fee from every team, adds the prize to the declared winner and displays
the ranked frame. -/
theorem startRace_run_ok (teams : List Team) (cars : List Car) (js : ℕ → Jitter)
    (ht : teams ≠ []) (hc : cars ≠ []) :
    startRace teams cars js true true =
      { finalTeams :=
          applyPrize (applyFee teams) (winnerTeamIdOf (raceRanking teams cars js)),
        displayedResults := some (raceRanking teams cars js),
        errors := [] } := by
  rcases teams with _ | ⟨t, ts⟩
  · exact absurd rfl ht
  rcases cars with _ | ⟨c, cs⟩
  · exact absurd rfl hc
  simp [startRace]

/-- Fee-then-prize over the whole table is a single pointwise budget update. -/
theorem applyPrize_applyFee (teams : List Team) (wid : String) :
    applyPrize (applyFee teams) wid =
      teams.map (fun t =>
        if t.teamId = wid then
          { t with budget := t.budget - RACE_FEE + PRIZE_MONEY }
        else
          { t with budget := t.budget - RACE_FEE }) := by
  unfold applyPrize applyFee
  rw [List.map_map]
  rfl


/-! Evaluation lemmas for the concrete fixtures. -/

/-- One jitter draw of the all-zero stream. -/
theorem zeroJitter_app (n : ℕ) : zeroJitter n = { j1 := 0, j2 := 0, j3 := 0 } := rfl

/-- Zero-jitter time of the slow fixture car. -/
theorem timeTaken_carSlow0 : timeTaken carSlow { j1 := 0, j2 := 0, j3 := 0 } = 21 := by
  unfold timeTaken carSlow
  norm_num

/-- Zero-jitter time of the fast fixture car. -/
theorem timeTaken_carFast0 : timeTaken carFast { j1 := 0, j2 := 0, j3 := 0 } = 9/2 := by
  unfold timeTaken carFast
  norm_num

/-- Zero-jitter time of the spec example's Car X. -/
theorem timeTaken_carX0 : timeTaken carX { j1 := 0, j2 := 0, j3 := 0 } = 253/84 := by
  unfold timeTaken carX
  norm_num

/-- Zero-jitter time of the spec example's Car Y. -/
theorem timeTaken_carY0 : timeTaken carY { j1 := 0, j2 := 0, j3 := 0 } = 9/2 := by
  unfold timeTaken carY
  norm_num

/-- Formatting of the 21-second time. -/
theorem formatTime_21 : formatTime 21 = "21.00 sec" := by
  unfold formatTime roundHalfEven twoDigits
  norm_num
  rfl

/-- Formatting of the 4.5-second time. -/
theorem formatTime_nine_halves : formatTime (9/2) = "4.50 sec" := by
  unfold formatTime roundHalfEven twoDigits
  norm_num
  rfl

/-- Formatting of Car X's 253/84-second time. -/
theorem formatTime_carX : formatTime (253/84) = "3.01 sec" := by
  unfold formatTime roundHalfEven twoDigits
  norm_num
  rfl

/-- Lexicographically, the 21-second string sorts BEFORE the 4.5-second
string: the character '2' precedes '4'. -/
theorem pyStrLe_21_45 : pyStrLe "21.00 sec" "4.50 sec" = true := by decide

/-- The 3.01-second string sorts before the 4.5-second string. -/
theorem pyStrLe_301_45 : pyStrLe "3.01 sec" "4.50 sec" = true := by decide

/-- The result row the race loop builds for the slow fixture car. -/
theorem mkResult_slow :
    mkResult [teamAlpha, teamBeta] carSlow { j1 := 0, j2 := 0, j3 := 0 } =
      { carModel := "Slowpoke", teamName := "Alpha", time := "21.00 sec",
        teamId := "t1", rawTime := 21 } := by
  unfold mkResult
  rw [timeTaken_carSlow0, formatTime_21]
  rfl

/-- The result row the race loop builds for the fast fixture car. -/
theorem mkResult_fast :
    mkResult [teamAlpha, teamBeta] carFast { j1 := 0, j2 := 0, j3 := 0 } =
      { carModel := "Bolt", teamName := "Beta", time := "4.50 sec",
        teamId := "t2", rawTime := 9/2 } := by
  unfold mkResult
  rw [timeTaken_carFast0, formatTime_nine_halves]
  rfl

/-- The result row for the spec example's Car X. -/
theorem mkResult_X :
    mkResult [teamA, teamB] carX { j1 := 0, j2 := 0, j3 := 0 } =
      { carModel := "Car X", teamName := "Team A", time := "3.01 sec",
        teamId := "a", rawTime := 253/84 } := by
  unfold mkResult
  rw [timeTaken_carX0, formatTime_carX]
  rfl

/-- The result row for the spec example's Car Y. -/
theorem mkResult_Y :
    mkResult [teamA, teamB] carY { j1 := 0, j2 := 0, j3 := 0 } =
      { carModel := "Car Y", teamName := "Team B", time := "4.50 sec",
        teamId := "b", rawTime := 9/2 } := by
  unfold mkResult
  rw [timeTaken_carY0, formatTime_nine_halves]
  rfl

/-- The unsorted results of the fixture race, in car-insertion order. -/
theorem simulateRace_slowfast :
    simulateRace [teamAlpha, teamBeta] [carSlow, carFast] zeroJitter =
      [mkResult [teamAlpha, teamBeta] carSlow { j1 := 0, j2 := 0, j3 := 0 },
       mkResult [teamAlpha, teamBeta] carFast { j1 := 0, j2 := 0, j3 := 0 }] := rfl

/-- The unsorted results of the spec example's race. -/
theorem simulateRace_XY :
    simulateRace [teamA, teamB] [carX, carY] zeroJitter =
      [mkResult [teamA, teamB] carX { j1 := 0, j2 := 0, j3 := 0 },
       mkResult [teamA, teamB] carY { j1 := 0, j2 := 0, j3 := 0 }] := rfl

/-- The ranked frame of the fixture race: the string sort puts the 21-second
row FIRST, because "21.00 sec" < "4.50 sec" lexicographically. -/
theorem ranking_slowfast :
    raceRanking [teamAlpha, teamBeta] [carSlow, carFast] zeroJitter =
      [{ carModel := "Slowpoke", teamName := "Alpha", time := "21.00 sec",
         teamId := "t1", rawTime := 21 },
       { carModel := "Bolt", teamName := "Beta", time := "4.50 sec",
         teamId := "t2", rawTime := 9/2 }] := by
  unfold raceRanking
  rw [simulateRace_slowfast, mkResult_slow, mkResult_fast]
  simp [sortByTime, insertByTime, pyStrLe_21_45]

/-- The ranked frame of the spec example's race: Car X first. -/
theorem ranking_XY :
    raceRanking [teamA, teamB] [carX, carY] zeroJitter =
      [{ carModel := "Car X", teamName := "Team A", time := "3.01 sec",
         teamId := "a", rawTime := 253/84 },
       { carModel := "Car Y", teamName := "Team B", time := "4.50 sec",
         teamId := "b", rawTime := 9/2 }] := by
  unfold raceRanking
  rw [simulateRace_XY, mkResult_X, mkResult_Y]
  simp [sortByTime, insertByTime, pyStrLe_301_45]

/-! Claim theorems. -/

/-- C1: the claim says the output list is sorted non-decreasing by the
computed per-car time and that the minimum-time car's team wins and gets the
prize.  The code sorts the "Time" column, which holds the *formatted string*
`"X.XX sec"`, so the order is lexicographic on strings: with zero jitter, the
21-second car's row `"21.00 sec"` sorts before the 4.5-second car's row
`"4.50 sec"`, the displayed order is not non-decreasing by computed time, and
the slower car's team `t1` is declared winner and paid the prize.  This
theorem evaluates the code at that failing input. -/
theorem c1_sort_by_formatted_string_misranks :
    timeTaken carFast (zeroJitter 1) < timeTaken carSlow (zeroJitter 0)
      ∧ (raceRanking [teamAlpha, teamBeta] [carSlow, carFast] zeroJitter).map
          RaceResult.rawTime = [21, 9/2]
      ∧ winnerTeamIdOf (raceRanking [teamAlpha, teamBeta] [carSlow, carFast] zeroJitter)
          = "t1"
      ∧ carFast.assignedTeamId = "t2"
      ∧ (startRace [teamAlpha, teamBeta] [carSlow, carFast] zeroJitter true true).finalTeams
          = [{ teamAlpha with budget := 54000 }, { teamBeta with budget := 49000 }] := by
  refine ⟨?_, ?_, ?_, rfl, ?_⟩
  · rw [zeroJitter_app, zeroJitter_app, timeTaken_carFast0, timeTaken_carSlow0]
    norm_num
  · rw [ranking_slowfast]
    rfl
  · rw [ranking_slowfast]
    rfl
  · rw [startRace_run_ok _ _ _ (by decide) (by decide), ranking_slowfast]
    decide

/-- C2: after a successful race every team's budget drops by `RACE_FEE`,
regardless of whether it entered a car, and each team whose id is the declared
winner's id additionally gains `PRIZE_MONEY`, exactly once. -/
theorem c2_settlement (teams : List Team) (cars : List Car) (js : ℕ → Jitter)
    (ht : teams ≠ []) (hc : cars ≠ []) :
    (startRace teams cars js true true).finalTeams =
      teams.map (fun t =>
        if t.teamId = winnerTeamIdOf (raceRanking teams cars js) then
          { t with budget := t.budget - RACE_FEE + PRIZE_MONEY }
        else
          { t with budget := t.budget - RACE_FEE }) := by
  rw [startRace_run_ok teams cars js ht hc]
  exact applyPrize_applyFee teams _

/-- Witness for C2 at the spec's §8 fixture. -/
theorem c2_settlement_witness :
    (startRace [teamA, teamB] [carX, carY] zeroJitter true true).finalTeams =
      [teamA, teamB].map (fun t =>
        if t.teamId = winnerTeamIdOf (raceRanking [teamA, teamB] [carX, carY] zeroJitter) then
          { t with budget := t.budget - RACE_FEE + PRIZE_MONEY }
        else
          { t with budget := t.budget - RACE_FEE }) :=
  c2_settlement [teamA, teamB] [carX, carY] zeroJitter (by decide) (by decide)

/-- C3: the code's `time_taken` expression is exactly the spec's formula
`100/(topSpeed·(1+j1)) + 10/(acceleration·(1+j2)) + 10/(handling·(1+j3))`,
with the three jitter draws taken per car. -/
theorem c3_time_formula (car : Car) (j : Jitter) :
    timeTaken car j =
      specTime car.topSpeed car.acceleration car.handling j.j1 j.j2 j.j3 := rfl

/-- C4: the spec's §8 zero-jitter example evaluated on the code: Car X's time
is exactly 253/84 seconds (between 3.011 and 3.012), Car Y's is 9/2 seconds,
Car X is ranked first and its team `a` is declared winner, and the final
budgets are 54000 for Team A and 49000 for Team B. -/
theorem c4_zero_jitter_example :
    timeTaken carX (zeroJitter 0) = 253/84
      ∧ 3011/1000 < timeTaken carX (zeroJitter 0)
      ∧ timeTaken carX (zeroJitter 0) < 3012/1000
      ∧ timeTaken carY (zeroJitter 1) = 9/2
      ∧ (raceRanking [teamA, teamB] [carX, carY] zeroJitter).head?.map
          RaceResult.carModel = some "Car X"
      ∧ winnerTeamIdOf (raceRanking [teamA, teamB] [carX, carY] zeroJitter) = "a"
      ∧ (startRace [teamA, teamB] [carX, carY] zeroJitter true true).finalTeams
          = [{ teamA with budget := 54000 }, { teamB with budget := 49000 }] := by
  refine ⟨?_, ?_, ?_, ?_, ?_, ?_, ?_⟩
  · rw [zeroJitter_app, timeTaken_carX0]
  · rw [zeroJitter_app, timeTaken_carX0]
    norm_num
  · rw [zeroJitter_app, timeTaken_carX0]
    norm_num
  · rw [zeroJitter_app, timeTaken_carY0]
  · rw [ranking_XY]
    rfl
  · rw [ranking_XY]
    rfl
  · rw [startRace_run_ok _ _ _ (by decide) (by decide), ranking_XY]
    decide

/-- C5: with no teams or no cars registered the race aborts with the
insufficient-entrants error before the fee phase: whatever the persistence
oracles say, no budget is touched and no results are produced. -/
theorem c5_insufficient_entrants (teams : List Team) (cars : List Car)
    (js : ℕ → Jitter) (feeOk prizeOk : Bool) (h : teams = [] ∨ cars = []) :
    startRace teams cars js feeOk prizeOk =
      { finalTeams := teams, displayedResults := none,
        errors := [RaceError.insufficientEntrants] } := by
  rcases h with rfl | rfl
  · simp [startRace]
  · simp [startRace]

/-- Witness for C5: no cars registered. -/
theorem c5_insufficient_entrants_witness :
    startRace [teamAlpha] [] zeroJitter true true =
      { finalTeams := [teamAlpha], displayedResults := none,
        errors := [RaceError.insufficientEntrants] } :=
  c5_insufficient_entrants [teamAlpha] [] zeroJitter true true (Or.inr rfl)

/-- C7: a persistence failure in the fee phase stops the script before the
time computation and settlement, leaving budgets untouched and displaying no
results; a persistence failure in the prize phase is only reported — the
ranked results are still displayed, the fees already deducted are kept, not
rolled back, and no prize is paid. -/
theorem c7_persistence_failures (teams : List Team) (cars : List Car)
    (js : ℕ → Jitter) (ht : teams ≠ []) (hc : cars ≠ []) :
    (∀ prizeOk : Bool,
        startRace teams cars js false prizeOk =
          { finalTeams := teams, displayedResults := none,
            errors := [RaceError.persistenceFee] })
      ∧ startRace teams cars js true false =
          { finalTeams := applyFee teams,
            displayedResults := some (raceRanking teams cars js),
            errors := [RaceError.persistencePrize] } := by
  rcases teams with _ | ⟨t, ts⟩
  · exact absurd rfl ht
  rcases cars with _ | ⟨c, cs⟩
  · exact absurd rfl hc
  constructor
  · intro prizeOk
    simp [startRace]
  · simp [startRace]

/-- Witness for C7. -/
theorem c7_persistence_failures_witness :
    (∀ prizeOk : Bool,
        startRace [teamAlpha] [carSlow] zeroJitter false prizeOk =
          { finalTeams := [teamAlpha], displayedResults := none,
            errors := [RaceError.persistenceFee] })
      ∧ startRace [teamAlpha] [carSlow] zeroJitter true false =
          { finalTeams := applyFee [teamAlpha],
            displayedResults := some (raceRanking [teamAlpha] [carSlow] zeroJitter),
            errors := [RaceError.persistencePrize] } :=
  c7_persistence_failures [teamAlpha] [carSlow] zeroJitter (by decide) (by decide)

/-- C8 counterexample: pressing Add Team with the empty name leaves the table
unchanged but reports NO error — the claim that it "fails with
ValidationError" is false on the code, which silently skips the insert. -/
theorem c8_counterexample :
    (addTeamHandler [teamAlpha] "" 50000 "t9" true true).teams = [teamAlpha]
      ∧ ¬ (addTeamHandler [teamAlpha] "" 50000 "t9" true true).reportedError = true := by
  decide

/-- C8 (amended): adding a team with an empty name is silently ignored — the
insert is skipped, the registry is unchanged, and no error is reported. -/
theorem c8_empty_name_silently_ignored (teams : List Team) (budgetIn : Int)
    (newId : String) (connOk persistOk : Bool) :
    addTeamHandler teams "" budgetIn newId connOk persistOk =
      { teams := teams, reportedError := false, succeeded := false } := by
  simp [addTeamHandler]

/-- C9 counterexample: pressing Add Car with non-positive requested stats
(speed 0, acceleration 0, handling 0) and a non-empty model reports NO error,
succeeds, and mutates the registry: the sliders clamp the stats to their
minimums (the inserted top speed is 100), so the claimed RangeError-and-no-
mutation behaviour is false on the code. -/
theorem c9_counterexample :
    (addCarHandler [teamAlpha] [] "Speedy" 0 0 0 0 "c9" true true).reportedError = false
      ∧ (addCarHandler [teamAlpha] [] "Speedy" 0 0 0 0 "c9" true true).succeeded = true
      ∧ (addCarHandler [teamAlpha] [] "Speedy" 0 0 0 0 "c9" true true).cars.map
          Car.topSpeed = [100] := by
  refine ⟨by decide, by decide, ?_⟩
  have h : (addCarHandler [teamAlpha] [] "Speedy" 0 0 0 0 "c9" true true).cars.map
      Car.topSpeed = [slider 100 400 0] := rfl
  rw [h]
  norm_num [slider]

/-- C9 (amended): with a connected store and a non-empty model, Add Car always
inserts exactly one car whose stats are the slider values clamped into
[100,400], [1,10] and [1,10] — so never non-positive, with no RangeError path
at all — and whose team reference is the id of a registered team (the
selectbox only offers registered teams); no error is reported.  With an empty
model the insert is silently skipped: the registry is unchanged and no error
is reported. -/
theorem c9_add_car_actual (teams : List Team) (cars : List Car)
    (carModel : String) (speedIn accelIn handlingIn : ℚ) (teamIdx : ℕ)
    (newId : String) (hm : carModel ≠ "") (hi : teamIdx < teams.length) :
    (∃ c : Car,
        (addCarHandler teams cars carModel speedIn accelIn handlingIn teamIdx
            newId true true).cars = cars ++ [c]
          ∧ 100 ≤ c.topSpeed ∧ c.topSpeed ≤ 400
          ∧ 1 ≤ c.acceleration ∧ c.acceleration ≤ 10
          ∧ 1 ≤ c.handling ∧ c.handling ≤ 10
          ∧ c.assignedTeamId ∈ teams.map Team.teamId)
      ∧ (addCarHandler teams cars carModel speedIn accelIn handlingIn teamIdx
          newId true true).reportedError = false
      ∧ (addCarHandler teams cars "" speedIn accelIn handlingIn teamIdx
          newId true true).cars = cars
      ∧ (addCarHandler teams cars "" speedIn accelIn handlingIn teamIdx
          newId true true).reportedError = false := by
  have hne : teams.isEmpty = false := by
    cases teams
    · simp at hi
    · rfl
  have hget : teams.get? teamIdx = some (teams.get ⟨teamIdx, hi⟩) :=
    List.get?_eq_get hi
  have hmem : teams.get ⟨teamIdx, hi⟩ ∈ teams := List.get_mem teams teamIdx hi
  have hsome :
      (teams.find? (fun t => t.teamName = (teams.get ⟨teamIdx, hi⟩).teamName)).isSome := by
    rw [List.find?_isSome]
    exact ⟨teams.get ⟨teamIdx, hi⟩, hmem, by simp⟩
  obtain ⟨t', ht'⟩ := Option.isSome_iff_exists.mp hsome
  have ht'mem : t' ∈ teams := List.mem_of_find?_eq_some ht'
  refine ⟨?_, ?_, ?_, ?_⟩
  · refine ⟨⟨newId, carModel, slider 100 400 speedIn, slider 1 10 accelIn,
      slider 1 10 handlingIn, t'.teamId⟩, ?_, ?_, ?_, ?_, ?_, ?_, ?_, ?_⟩
    · simp only [addCarHandler, hne, hget, ht', Bool.false_eq_true, if_false,
        Bool.not_true, Bool.or_false, Option.map_some, Option.getD_some]
      rw [if_neg (by simp [hm])]
      rfl
    · exact (slider_bounds 100 400 speedIn (by norm_num)).1
    · exact (slider_bounds 100 400 speedIn (by norm_num)).2
    · exact (slider_bounds 1 10 accelIn (by norm_num)).1
    · exact (slider_bounds 1 10 accelIn (by norm_num)).2
    · exact (slider_bounds 1 10 handlingIn (by norm_num)).1
    · exact (slider_bounds 1 10 handlingIn (by norm_num)).2
    · exact List.mem_map_of_mem Team.teamId ht'mem
  · simp only [addCarHandler, hne, hget, ht', Bool.false_eq_true, if_false,
      Bool.not_true, Bool.or_false]
    rw [if_neg (by simp [hm])]
  · simp only [addCarHandler, hne, Bool.false_eq_true, if_false]
    cases hx : teams.get? teamIdx <;> simp
  · simp only [addCarHandler, hne, Bool.false_eq_true, if_false]
    cases hx : teams.get? teamIdx <;> simp

/-- Witness for C9's amended theorem at a concrete input: a car with
requested stats 0/0/0 is inserted with clamped, positive stats. -/
theorem c9_add_car_actual_witness :
    (∃ c : Car,
        (addCarHandler [teamAlpha] [] "Speedy" 0 0 0 0 "c9" true true).cars = [] ++ [c]
          ∧ 100 ≤ c.topSpeed ∧ c.topSpeed ≤ 400
          ∧ 1 ≤ c.acceleration ∧ c.acceleration ≤ 10
          ∧ 1 ≤ c.handling ∧ c.handling ≤ 10
          ∧ c.assignedTeamId ∈ [teamAlpha].map Team.teamId)
      ∧ (addCarHandler [teamAlpha] [] "Speedy" 0 0 0 0 "c9" true true).reportedError = false
      ∧ (addCarHandler [teamAlpha] [] "" 0 0 0 0 "c9" true true).cars = []
      ∧ (addCarHandler [teamAlpha] [] "" 0 0 0 0 "c9" true true).reportedError = false :=
  c9_add_car_actual [teamAlpha] [] "Speedy" 0 0 0 0 "c9" (by decide) (by decide)

/-- C10: for positive stats and jitter draws within [-0.1, 0.1], every
denominator `stat * (1 + j)` is at least `0.9 * stat`, hence strictly
positive — no division by zero — and the computed time is strictly
positive. -/
theorem c10_time_positive (car : Car) (j : Jitter) (hs : 0 < car.topSpeed)
    (ha : 0 < car.acceleration) (hh : 0 < car.handling)
    (h1l : -(1/10) ≤ j.j1) (h1r : j.j1 ≤ 1/10)
    (h2l : -(1/10) ≤ j.j2) (h2r : j.j2 ≤ 1/10)
    (h3l : -(1/10) ≤ j.j3) (h3r : j.j3 ≤ 1/10) :
    9/10 * car.topSpeed ≤ car.topSpeed * (1 + j.j1)
      ∧ 9/10 * car.acceleration ≤ car.acceleration * (1 + j.j2)
      ∧ 9/10 * car.handling ≤ car.handling * (1 + j.j3)
      ∧ 0 < car.topSpeed * (1 + j.j1)
      ∧ 0 < car.acceleration * (1 + j.j2)
      ∧ 0 < car.handling * (1 + j.j3)
      ∧ 0 < timeTaken car j := by
  have b1 : 9/10 * car.topSpeed ≤ car.topSpeed * (1 + j.j1) := by
    nlinarith [mul_nonneg hs.le (by linarith : (0:ℚ) ≤ j.j1 + 1/10)]
  have b2 : 9/10 * car.acceleration ≤ car.acceleration * (1 + j.j2) := by
    nlinarith [mul_nonneg ha.le (by linarith : (0:ℚ) ≤ j.j2 + 1/10)]
  have b3 : 9/10 * car.handling ≤ car.handling * (1 + j.j3) := by
    nlinarith [mul_nonneg hh.le (by linarith : (0:ℚ) ≤ j.j3 + 1/10)]
  have p1 : 0 < car.topSpeed * (1 + j.j1) :=
    lt_of_lt_of_le (mul_pos (by norm_num) hs) b1
  have p2 : 0 < car.acceleration * (1 + j.j2) :=
    lt_of_lt_of_le (mul_pos (by norm_num) ha) b2
  have p3 : 0 < car.handling * (1 + j.j3) :=
    lt_of_lt_of_le (mul_pos (by norm_num) hh) b3
  have t1 : 0 < 100 / (car.topSpeed * (1 + j.j1)) := div_pos (by norm_num) p1
  have t2 : 0 < 10 / (car.acceleration * (1 + j.j2)) := div_pos (by norm_num) p2
  have t3 : 0 < 10 / (car.handling * (1 + j.j3)) := div_pos (by norm_num) p3
  exact ⟨b1, b2, b3, p1, p2, p3, add_pos (add_pos t1 t2) t3⟩

/-- Witness for C10 at Car X with extreme admissible jitters. -/
theorem c10_time_positive_witness :
    0 < timeTaken carX { j1 := 1/10, j2 := -(1/10), j3 := 0 } :=
  (c10_time_positive carX { j1 := 1/10, j2 := -(1/10), j3 := 0 }
    (show (0:ℚ) < 300 by norm_num) (show (0:ℚ) < 8 by norm_num)
    (show (0:ℚ) < 7 by norm_num)
    (show -(1/10) ≤ (1/10 : ℚ) by norm_num) (show (1/10 : ℚ) ≤ 1/10 by norm_num)
    (show -(1/10) ≤ (-(1/10) : ℚ) by norm_num) (show (-(1/10) : ℚ) ≤ 1/10 by norm_num)
    (show -(1/10) ≤ (0 : ℚ) by norm_num) (show (0 : ℚ) ≤ 1/10 by norm_num)).2.2.2.2.2.2

end RaceSim
